import Mathlib

/-!
Verification of the Contrast-You training pipeline against its specification.

Shallow embedding of the control-flow relevant parts of the repository:
* `ContrastTrainer.start_training` (contrastyou/trainer/contrast_trainer.py)
* the per-batch bodies of the epocher `_run` loops
  (semi_seg/epochers/base.py, contrastyou/epocher/contrast_epocher.py)
* `MeanTeacherEpocher.regularization` and `InfoNCEEpocher.regularization`
  (semi_seg/epochers/comparable.py)
* `_ConsistencyEpocherHook.__call__` (semi_seg/hooks/consistency.py)
* `create_hook_from_config` (hook_creator.py) and `worker` (main.py)
* the argument validation of `TrainEpocher.__init__` and of the trainer
  mixin `_FeatureExtractor._init` (semi_seg/trainers/_helper.py)

Tensors are embedded with their batch dimension as a `List`; scalar losses
are embedded as `FVal`, a rational number extended with a NaN element so
that the `torch.isnan` checks of the source are expressible.  Python
exceptions are embedded as the `Err` type, fallible code returns `Except`.
Loss-function bodies, data loading and logging are external collaborators
of the code under study; they enter the embedding as function parameters.
-/

/-- Python exceptions raised by the embedded code. -/
inductive Err where
  | runtimeError (msg : String)
  | assertionError (msg : String)
  | unboundLocal (varname : String)
  | nameError (varname : String)
  | keyError (key : String)
  | indexError (msg : String)
deriving DecidableEq, Repr

/-- A scalar tensor value: a rational number or NaN.  Arithmetic involving
NaN yields NaN, as for IEEE floats; finite values are embedded as exact
rationals. -/
inductive FVal where
  | nan : FVal
  | val : ℚ → FVal
deriving DecidableEq, Repr

/-- Addition on scalar values, NaN-propagating. -/
def FVal.add : FVal → FVal → FVal
  | .val a, .val b => .val (a + b)
  | _, _ => .nan

/-- Scaling by a finite scalar (`weight * loss`), NaN-propagating. -/
def FVal.smul (q : ℚ) : FVal → FVal
  | .val b => .val (q * b)
  | .nan => .nan

/-- The `torch.isnan` test. -/
def FVal.isnan : FVal → Bool
  | .nan => true
  | .val _ => false

namespace ContrastTrainer

/-! ### ContrastTrainer.start_training
(contrastyou/trainer/contrast_trainer.py, lines 158-187)

The trainer buffers that `start_training` consults are the four booleans
registered in `__init__` (lines 51-54).  The outcome of each
`load_state_dict_from_path` call is environment-determined (filesystem
contents), so it is a parameter of the run. -/

/-- Outcome of a `load_state_dict_from_path` call for one stage. -/
inductive LoadResult where
  | ok : LoadResult
  | fail : LoadResult
deriving DecidableEq, Repr, Fintype

/-- The environment: which per-stage checkpoint loads would succeed. -/
structure Env where
  loadEncoder : LoadResult
  loadDecoder : LoadResult
  loadFinetune : LoadResult
deriving DecidableEq, Repr, Fintype

/-- The trainer buffers read by `start_training`
(`train_encoder`, `train_decoder`, `train_encoder_done`,
`train_decoder_done`). -/
structure TrainerState where
  train_encoder : Bool
  train_decoder : Bool
  train_encoder_done : Bool
  train_decoder_done : Bool
deriving DecidableEq, Repr, Fintype

/-- Observable actions of one `start_training` run, in program order. -/
inductive Event where
  | pretrainEncoderInit
  | loadEncoderCheckpoint
  | pretrainEncoderRun
  | pretrainDecoderInit
  | loadDecoderCheckpoint
  | printDecoderLoadFailed
  | pretrainDecoderRun
  | finetuneInit
  | loadFinetuneCheckpoint
  | printFinetuneLoadFailed
  | finetuneRun
deriving DecidableEq, Repr

/-- Message of the `RuntimeError` re-raised on encoder checkpoint-load
failure (line 167). -/
def encoderFailMsg : String := "loading pretrain_encoder_checkpoint failed"

/-- The local variable read at line 182. -/
def checkpointAlreadyLoadVar : String := "checkpoint_already_load"

/-- Lines 161-170: the encoder block of `start_training`.  A load failure
is re-raised as a `RuntimeError`; on success (or with no checkpoint) the
encoder epochs run unless `train_encoder_done`. -/
def encoderStage (t : TrainerState) (ckptGiven : Bool) (env : Env) :
    List Event × Option Err :=
  if t.train_encoder then
    if ckptGiven then
      match env.loadEncoder with
      | .fail => ([Event.pretrainEncoderInit], some (Err.runtimeError encoderFailMsg))
      | .ok =>
        (if !t.train_encoder_done then
           [Event.pretrainEncoderInit, Event.loadEncoderCheckpoint, Event.pretrainEncoderRun]
         else
           [Event.pretrainEncoderInit, Event.loadEncoderCheckpoint], none)
    else
      (if !t.train_encoder_done then
         [Event.pretrainEncoderInit, Event.pretrainEncoderRun]
       else
         [Event.pretrainEncoderInit], none)
  else ([], none)

/-- Lines 171-180: the decoder block.  A load failure is only printed
(line 178); a successful load assigns the local variable
`checkpoint_already_load := True` (line 176), which this embedding returns
as `some true`; `none` means the local is still unbound. -/
def decoderStage (t : TrainerState) (ckptGiven : Bool) (env : Env) :
    List Event × Option Bool :=
  if t.train_decoder then
    let loadPart : List Event × Option Bool :=
      if ckptGiven then
        match env.loadDecoder with
        | .ok => ([Event.pretrainDecoderInit, Event.loadDecoderCheckpoint], some true)
        | .fail => ([Event.pretrainDecoderInit, Event.printDecoderLoadFailed], none)
      else ([Event.pretrainDecoderInit], none)
    (if !t.train_decoder_done then loadPart.1 ++ [Event.pretrainDecoderRun] else loadPart.1,
     loadPart.2)
  else ([], none)

/-- Lines 181-187: the finetune block.  Line 182 reads the local
`checkpoint_already_load` when a checkpoint was given; reading it while
unbound is a Python `UnboundLocalError`.  A finetune load failure is only
printed (line 186). -/
def finetuneStage (ckptGiven : Bool) (checkpointAlreadyLoad : Option Bool) (env : Env) :
    List Event × Option Err :=
  if ckptGiven then
    match checkpointAlreadyLoad with
    | none => ([Event.finetuneInit], some (Err.unboundLocal checkpointAlreadyLoadVar))
    | some b =>
      if !b then
        match env.loadFinetune with
        | .ok => ([Event.finetuneInit, Event.loadFinetuneCheckpoint, Event.finetuneRun], none)
        | .fail => ([Event.finetuneInit, Event.printFinetuneLoadFailed, Event.finetuneRun], none)
      else ([Event.finetuneInit, Event.finetuneRun], none)
  else ([Event.finetuneInit, Event.finetuneRun], none)

/-- `start_training` over the boolean fact of a checkpoint argument being
present; a raised exception aborts the remaining stages. -/
def startTrainingCore (t : TrainerState) (ckptGiven : Bool) (env : Env) :
    List Event × Option Err :=
  let enc := encoderStage t ckptGiven env
  match enc.2 with
  | some e => (enc.1, some e)
  | none =>
    let dec := decoderStage t ckptGiven env
    let ft := finetuneStage ckptGiven dec.2 env
    (enc.1 ++ dec.1 ++ ft.1, ft.2)

/-- `ContrastTrainer.start_training(self, checkpoint=None)`: the path
string itself only selects which files the loads read, which the
environment already captures. -/
def start_training (t : TrainerState) (checkpoint : Option String) (env : Env) :
    List Event × Option Err :=
  startTrainingCore t checkpoint.isSome env

/-- A concrete checkpoint path for closed instances. -/
def ckptPath : String := "runs/last"

end ContrastTrainer

/-! ### Epocher batch steps
(semi_seg/epochers/base.py lines 127-181,
contrastyou/epocher/contrast_epocher.py lines 77-100 and 126-167)

A tensor with a batch dimension is a `List` over the per-example payload.
The seeded `TensorRandomFlip` transformer, the model forward and the loss
criteria are external numerical collaborators, passed in as functions;
`FixRandomSeed(seed)` replaying the same flips on images and on logits is
captured by passing the same per-example transform for both uses. -/

/-- Observable actions inside one batch of a training epoch. -/
inductive Ev where
  | modelForward (batchSize : Nat)
  | teacherForward
  | emaUpdate
  | zeroGrad
  | backward (loss : FVal)
  | optStep
deriving DecidableEq, Repr

/-- The keyword arguments that `TrainEpocher._run` passes to
`self.regularization(...)` (base.py lines 160-166). -/
structure RegInput (α β : Type) where
  unlabeled_tf_logits : List β
  unlabeled_logits_tf : List β
  unlabeled_image : List α
  unlabeled_image_tf : List α

/-- Message of the error that `torch.split` raises when the requested
sizes do not sum to the batch length. -/
def splitSizeMsg : String := "split sizes do not sum to batch length"

namespace TrainEpocher

/-- Lines 145-149: the single forward pass over
`cat([labeled_image, unlabeled_image, unlabeled_image_tf])` and the
`torch.split(predict_logits, [n_l, n_unl, n_unl], dim=0)` that follows. -/
def forwardSplit {α β : Type} (model : List α → List β)
    (labeled_image unlabeled_image unlabeled_image_tf : List α) :
    List β × List β × List β :=
  let n_l := labeled_image.length
  let n_unl := unlabeled_image.length
  let predict_logits := model (labeled_image ++ unlabeled_image ++ unlabeled_image_tf)
  (predict_logits.take n_l,
   (predict_logits.drop n_l).take n_unl,
   (predict_logits.drop n_l).drop n_unl)

/-- One iteration of the batch loop of `TrainEpocher._run`
(base.py lines 133-180).  `torch.split` raises when the requested sizes do
not sum to the batch length of `predict_logits`.  The regularization
extension point receives the batch context and may carry a state `σ`
(for example a mean-teacher shadow model) across batches; it returns the
regularization loss, the new state and its own observable actions.
No NaN check appears anywhere in this loop. -/
def runBatch {α β γ σ : Type} (model : List α → List β)
    (affineImg : α → α) (affineLogit : β → β)
    (supCriterion : List β → List γ → FVal)
    (regularization : RegInput α β → σ → FVal × σ × List Ev)
    (regWeight : ℚ)
    (labeled_image : List α) (labeled_target : List γ) (unlabeled_image : List α)
    (st : σ) : Except Err (σ × List Ev) :=
  let n_l := labeled_image.length
  let n_unl := unlabeled_image.length
  let unlabeled_image_tf := unlabeled_image.map affineImg
  let predict_logits := model (labeled_image ++ unlabeled_image ++ unlabeled_image_tf)
  if predict_logits.length = n_l + n_unl + n_unl then
    let split := forwardSplit model labeled_image unlabeled_image unlabeled_image_tf
    let label_logits := split.1
    let unlabel_logits := split.2.1
    let unlabel_tf_logits := split.2.2
    let unlabel_logits_tf := unlabel_logits.map affineLogit
    let sup_loss := supCriterion label_logits labeled_target
    let regOut := regularization
      ⟨unlabel_tf_logits, unlabel_logits_tf, unlabeled_image, unlabeled_image_tf⟩ st
    let total_loss := sup_loss.add (FVal.smul regWeight regOut.1)
    Except.ok (regOut.2.1,
      [Ev.modelForward (n_l + n_unl + n_unl)] ++ regOut.2.2
        ++ [Ev.zeroGrad, Ev.backward total_loss, Ev.optStep])
  else
    Except.error (Err.runtimeError splitSizeMsg)

/-- `TrainEpocher.regularization` (base.py lines 189-190): the base class
contributes `torch.tensor(0)`. -/
def baseRegularization {α β σ : Type} : RegInput α β → σ → FVal × σ × List Ev :=
  fun _ st => (FVal.val 0, st, [])

end TrainEpocher

/-- Per-parameter state of the mean-teacher pair; the state-dict of each
network is flattened to a list of scalars. -/
structure MTState where
  student_params : List ℚ
  teacher_params : List ℚ
deriving DecidableEq, Repr

/-- Modelled from the spec: `deepclustering2.models.ema_updater`, external
to this repository, applies `teacher = decay*teacher + (1-decay)*student`
per-parameter. -/
def ema_update (decay : ℚ) (teacher student : List ℚ) : List ℚ :=
  List.zipWith (fun t s => decay * t + (1 - decay) * s) teacher student

namespace MeanTeacherEpocher

/-- `MeanTeacherEpocher.regularization` (semi_seg/epochers/comparable.py
lines 33-51): a no-grad teacher forward on the unlabeled images, the
same-seed flip of the teacher logits, the consistency criterion on the
softmaxed pair (the softmax and MSE body folded into the external
`regCriterion`), then — still inside the regularization call, before the
caller reaches its backward and optimizer step — the EMA update of the
teacher (line 50). -/
def regularization {α β : Type} (teacherModel : List α → List β)
    (affineLogit : β → β) (regCriterion : List β → List β → FVal)
    (decay : ℚ) : RegInput α β → MTState → FVal × MTState × List Ev :=
  fun rin st =>
    let teacher_unlabeled_logit := teacherModel rin.unlabeled_image
    let teacher_unlabeled_logit_tf := teacher_unlabeled_logit.map affineLogit
    let reg_loss := regCriterion rin.unlabeled_tf_logits teacher_unlabeled_logit_tf
    (reg_loss,
     { st with teacher_params := ema_update decay st.teacher_params st.student_params },
     [Ev.teacherForward, Ev.emaUpdate])

end MeanTeacherEpocher

namespace PretrainEncoderEpoch

/-- One iteration of the batch loop of `PretrainEncoderEpoch._run`
(contrastyou/epocher/contrast_epocher.py lines 82-99): the forward pass on
`cat([img, img_tf])`, the projection and contrastive criterion (external
math, entering as the produced loss), then zero-grad, backward, step.
There is no NaN check in this loop. -/
def runBatch (batchSize : Nat) (contrastive_loss : FVal) : Except Err (List Ev) :=
  Except.ok [Ev.modelForward batchSize, Ev.zeroGrad,
    Ev.backward contrastive_loss, Ev.optStep]

end PretrainEncoderEpoch

/-- Message of the `RuntimeError` raised on a NaN contrastive loss
(contrast_epocher.py line 158 raises with the offending tensor). -/
def decoderNanMsg : String := "nan contrastive_loss"

namespace PretrainDecoderEpoch

/-- One iteration of the batch loop of `PretrainDecoderEpoch._run`
(contrastyou/epocher/contrast_epocher.py lines 131-166): after the
contrastive criterion, lines 157-158 test `torch.isnan(contrastive_loss)`
and raise `RuntimeError` before the backward pass; otherwise zero-grad,
backward, step. -/
def runBatch (batchSize : Nat) (contrastive_loss : FVal) : Except Err (List Ev) :=
  if contrastive_loss.isnan then
    Except.error (Err.runtimeError decoderNanMsg)
  else
    Except.ok [Ev.modelForward batchSize, Ev.zeroGrad,
      Ev.backward contrastive_loss, Ev.optStep]

end PretrainDecoderEpoch

/-- The undefined name read at comparable.py line 223. -/
def iicLossListVar : String := "_iic_loss_list"

namespace InfoNCEEpocher

/-- `InfoNCEEpocher.regularization` (semi_seg/epochers/comparable.py lines
204-232).  The loop at line 209 pairs each captured intermediate feature
with its projector (both sequences are built from the same
`feature_position` list, so they arrive here already paired).  The body
slices and flips the features and then, at line 223, evaluates
`average_iter(_iic_loss_list)`: the assignment of `_iic_loss_list` is
commented out (line 222), so the first iteration raises `NameError`.
When the pairing is empty the loop never runs and the external
`weighted_average_iter` helper (contrastyou/helper.py, not part of the
sources under study) is applied to an empty list; that unmodelled outcome
is the `emptyCase` parameter. -/
def regularization {φ π : Type} (emptyCase : Except Err FVal)
    (featureProjectorPairs : List (φ × π)) : Except Err FVal :=
  match featureProjectorPairs with
  | [] => emptyCase
  | _ :: _ => Except.error (Err.nameError iicLossListVar)

end InfoNCEEpocher

namespace ConsistencyHook

/-- Row-wise softmax (`logits.softmax(1)`): a tensor of shape
`batch × classes` is a list of class-score rows.  The exponential map is a
parameter: the claims about this hook hold for every choice of it, and the
floating-point `exp` of the source has no exact rational counterpart. -/
def softmaxRow (exp : ℚ → ℚ) (row : List ℚ) : List ℚ :=
  let exps := row.map exp
  let s := exps.sum
  exps.map (fun e => e / s)

/-- `logits.softmax(1)` over the batch. -/
def softmax (exp : ℚ → ℚ) (logits : List (List ℚ)) : List (List ℚ) :=
  logits.map (softmaxRow exp)

/-- `nn.MSELoss()` (the criterion that `ConsistencyTrainerHook` installs):
mean of elementwise squared differences. -/
def mseLoss (input target : List (List ℚ)) : ℚ :=
  let total := (List.zipWith
    (fun a b => (List.zipWith (fun x y => (x - y) ^ 2) a b).sum) input target).sum
  let count := (List.zipWith (fun (a b : List ℚ) => min a.length b.length) input target).sum
  total / count

/-- `_ConsistencyEpocherHook.__call__` (semi_seg/hooks/consistency.py
lines 27-33): softmax both logit tensors, apply the criterion to
`(unlabeled_prob_tf.detach(), unlabeled_tf_prob)`, record the meter, and
return `self._weight * loss`. -/
def call (exp : ℚ → ℚ) (weight : ℚ)
    (unlabeled_tf_logits unlabeled_logits_tf : List (List ℚ)) : ℚ :=
  let unlabeled_tf_prob := softmax exp unlabeled_tf_logits
  let unlabeled_prob_tf := softmax exp unlabeled_logits_tf
  let loss := mseLoss unlabeled_prob_tf unlabeled_tf_prob
  weight * loss

end ConsistencyHook

namespace TrainEpocherInit

/-- A Python argument that may be `None` (the default of both keyword
arguments) or a list; element types are tracked by the payload type. -/
inductive PyArg (α : Type) where
  | none : PyArg α
  | list (xs : List α) : PyArg α
deriving DecidableEq, Repr

/-- Message of the failed `isinstance` assert on `feature_position`. -/
def positionAssertMsg : String := "feature_position"

/-- Message of the `IndexError` raised by the `feature_position[0]`
subscript on an empty list. -/
def positionIndexMsg : String := "feature_position[0]"

/-- Message of the failed `isinstance` assert on `feature_importance`. -/
def importanceAssertMsg : String := "feature_importance"

/-- Message of the `IndexError` raised by the `feature_importance[0]`
subscript on an empty list. -/
def importanceIndexMsg : String := "feature_importance[0]"

/-- The validation performed by `TrainEpocher.__init__`
(semi_seg/epochers/base.py lines 109-113):
`assert isinstance(feature_position, list) and isinstance(feature_position[0], str)`
and the same for `feature_importance` with `(int, float)`.  Passing `None`
fails the `isinstance` assert; an empty list raises `IndexError` at the
`[0]` subscript inside the assert expression.  No comparison of the two
lengths appears anywhere in `__init__`. -/
def checkInitAsserts (feature_position : PyArg String) (feature_importance : PyArg ℚ) :
    Except Err (List String × List ℚ) :=
  match feature_position with
  | .none => Except.error (Err.assertionError positionAssertMsg)
  | .list fp =>
    if fp.isEmpty then Except.error (Err.indexError positionIndexMsg)
    else
      match feature_importance with
      | .none => Except.error (Err.assertionError importanceAssertMsg)
      | .list fi =>
        if fi.isEmpty then Except.error (Err.indexError importanceIndexMsg)
        else Except.ok (fp, fi)

end TrainEpocherInit

namespace FeatureExtractorMixin

/-- Message of the raise at _helper.py line 69. -/
def missingBlockMsg : String := "FeatureExtractor Should be in the config."

/-- Message of the failed length assert at _helper.py line 77. -/
def lengthMismatchMsg : String := "feature_importance and feature_positions length mismatch"

/-- `_FeatureExtractor._init` (semi_seg/trainers/_helper.py lines 67-84):
requires the `FeatureExtractor` block in the configuration, reads
`feature_names` and `feature_importance`, coerces the importances to
float, and asserts
`len(self._feature_importance) == len(self.feature_positions)`
(line 77) before any batch can be processed. -/
def init (hasFeatureExtractorBlock : Bool)
    (feature_names : List String) (feature_importance : List ℚ) :
    Except Err (List String × List ℚ) :=
  if !hasFeatureExtractorBlock then
    Except.error (Err.runtimeError missingBlockMsg)
  else if feature_importance.length = feature_names.length then
    Except.ok (feature_names, feature_importance)
  else
    Except.error (Err.assertionError lengthMismatchMsg)

end FeatureExtractorMixin

/-! ### Hook creation and the worker entry point
(hook_creator.py lines 11-52, main.py lines 48-103)

The configuration enters the embedding as the presence of its block keys;
the payload of each block feeds only the externally-constructed hook
objects. -/

/-- Presence of the configuration keys consulted by
`create_hook_from_config` (`Data`/`Trainer` are subscripted
unconditionally at lines 12-13). -/
structure Config where
  hasData : Bool
  hasTrainer : Bool
  hasInfonceParams : Bool
  hasSPInfonceParams : Bool
  hasDiscreteMIConsistencyParams : Bool
  hasMeanTeacherParameters : Bool
  hasDifferentiableMeanTeacherParameters : Bool
  hasEntropyMinParameters : Bool
  hasOrthogonalParameters : Bool
  hasIIDSegParameters : Bool
deriving DecidableEq, Repr

/-- The hook kinds that `create_hook_from_config` can append. -/
inductive Hook where
  | infonce
  | spInfonce
  | discreteMIConsistency
  | meanTeacher
  | differentiableMeanTeacher
  | entMin
  | orthogonal
  | iidSeg
deriving DecidableEq, Repr

/-- The configuration key subscripted at hook_creator.py line 12. -/
def dataKey : String := "Data"

/-- The configuration key subscripted at hook_creator.py line 13. -/
def trainerKey : String := "Trainer"

/-- Message of the raise at hook_creator.py line 30. -/
def mtPretrainMsg : String := "`MeanTeacherParameters` are not supported for pretrain stage"

/-- Message of the raise at hook_creator.py line 25. -/
def dmiPretrainMsg : String := "DiscreteMIConsistencyParams are not supported for pretrain stage"

/-- Message of the raise at hook_creator.py line 37. -/
def dmtPretrainMsg : String :=
  "`DifferentiableMeanTeacherParameters` are not supported for pretrain stage"

/-- `create_hook_from_config(model, config, *, is_pretrain, trainer)`
(hook_creator.py lines 11-52): block keys are scanned in source order;
each present block appends its hook, and the three teacher-style blocks
first raise `RuntimeError` when `is_pretrain` is set. -/
def create_hook_from_config (cfg : Config) (is_pretrain : Bool) : Except Err (List Hook) :=
  if !cfg.hasData then Except.error (Err.keyError dataKey)
  else if !cfg.hasTrainer then Except.error (Err.keyError trainerKey)
  else
    let hooks : List Hook := []
    let hooks := if cfg.hasInfonceParams then hooks ++ [Hook.infonce] else hooks
    let hooks := if cfg.hasSPInfonceParams then hooks ++ [Hook.spInfonce] else hooks
    if cfg.hasDiscreteMIConsistencyParams && is_pretrain then
      Except.error (Err.runtimeError dmiPretrainMsg)
    else
      let hooks := if cfg.hasDiscreteMIConsistencyParams then
          hooks ++ [Hook.discreteMIConsistency] else hooks
      if cfg.hasMeanTeacherParameters && is_pretrain then
        Except.error (Err.runtimeError mtPretrainMsg)
      else
        let hooks := if cfg.hasMeanTeacherParameters then hooks ++ [Hook.meanTeacher] else hooks
        if cfg.hasDifferentiableMeanTeacherParameters && is_pretrain then
          Except.error (Err.runtimeError dmtPretrainMsg)
        else
          let hooks := if cfg.hasDifferentiableMeanTeacherParameters then
              hooks ++ [Hook.differentiableMeanTeacher] else hooks
          let hooks := if cfg.hasEntropyMinParameters then hooks ++ [Hook.entMin] else hooks
          let hooks := if cfg.hasOrthogonalParameters then hooks ++ [Hook.orthogonal] else hooks
          let hooks := if cfg.hasIIDSegParameters then hooks ++ [Hook.iidSeg] else hooks
          Except.ok hooks

/-- Outcome of the hook-selection part of `worker`: the hooks that will be
registered, and whether `trainer.register_hook` (rather than
`nullcontext`) wraps the training. -/
structure WorkerOutcome where
  hooks : List Hook
  hooksRegistered : Bool
deriving DecidableEq, Repr

/-- `trainer_zoo` (main.py lines 22-27). -/
def trainer_zoo : List String := ["semi", "ft", "pretrain", "mt", "dmt", "mixup"]

/-- Message of the failed assert at main.py line 85. -/
def emptyHooksMsg : String := "You should provide Hook configuration"

/-- The hook-construction and validation section of `worker`
(main.py lines 62-103): an unknown trainer name fails the `trainer_zoo`
subscript with `KeyError`; for names other than `ft` and `dmt` the hooks
are built from the configuration and `assert len(hooks) > 0` (line 85)
makes an empty hook list fatal; for `ft` and `dmt` hook construction and
the assert are skipped, `hooks = []`, registration is replaced by
`nullcontext`, and training proceeds. -/
def worker (trainer_name : String) (cfg : Config) : Except Err WorkerOutcome :=
  if trainer_name ∈ trainer_zoo then
    let is_pretrain := trainer_name == "pretrain"
    if trainer_name != "ft" && trainer_name != "dmt" then
      match create_hook_from_config cfg is_pretrain with
      | Except.error e => Except.error e
      | Except.ok hooks =>
        if hooks.length = 0 then
          Except.error (Err.assertionError emptyHooksMsg)
        else Except.ok ⟨hooks, true⟩
    else Except.ok ⟨[], false⟩
  else Except.error (Err.keyError trainer_name)

/-! ## Theorems -/

namespace ContrastTrainer

/-- A trainer resuming with both pretraining stages enabled and neither
marked done. -/
def bothStagesTrainer : TrainerState := ⟨true, true, false, false⟩

/-- A trainer with decoder pretraining disabled. -/
def encoderOnlyTrainer : TrainerState := ⟨true, false, false, false⟩

/-- An environment in which the decoder-stage (and finetune-stage)
checkpoint loads fail while the encoder-stage load succeeds. -/
def envDecoderLoadFails : Env := ⟨LoadResult.ok, LoadResult.fail, LoadResult.fail⟩

/-- C1: counterexample.  With a resume path given and the decoder-stage
checkpoint load failing, no fatal error is raised at the decoder stage:
the failure is printed, decoder pretraining runs anyway, and the run later
aborts with an unbound-local error at the finetune branch — finetune
training never proceeds.  This falsifies both the claimed decoder-fatal
policy and the claimed log-and-proceed finetune policy. -/
theorem C1_decoder_load_failure_is_not_fatal_cex :
    Event.printDecoderLoadFailed ∈ (start_training bothStagesTrainer (some ckptPath) envDecoderLoadFails).1 ∧
    Event.pretrainDecoderRun ∈ (start_training bothStagesTrainer (some ckptPath) envDecoderLoadFails).1 ∧
    (start_training bothStagesTrainer (some ckptPath) envDecoderLoadFails).2 =
      some (Err.unboundLocal checkpointAlreadyLoadVar) ∧
    Event.finetuneRun ∉ (start_training bothStagesTrainer (some ckptPath) envDecoderLoadFails).1 := by
  decide

/-- C1 (amended): a checkpoint-load failure raises a fatal `RuntimeError`
only for the encoder-pretrain stage.  A decoder-stage load failure is
merely printed and decoder pretraining proceeds.  The finetune-stage load
is never attempted when a resume path is given: either the decoder load
succeeded (so the flag skips it) or reading the unassigned flag aborts the
run first. -/
theorem C1_checkpoint_load_error_policy :
    ∀ (t : TrainerState) (env : Env) (p : String),
      (t.train_encoder = true → env.loadEncoder = LoadResult.fail →
        (start_training t (some p) env).2 = some (Err.runtimeError encoderFailMsg) ∧
        Event.pretrainEncoderRun ∉ (start_training t (some p) env).1) ∧
      (t.train_encoder = true → env.loadEncoder = LoadResult.ok →
       t.train_decoder = true → env.loadDecoder = LoadResult.fail →
        Event.printDecoderLoadFailed ∈ (start_training t (some p) env).1 ∧
        (t.train_decoder_done = false →
          Event.pretrainDecoderRun ∈ (start_training t (some p) env).1)) ∧
      Event.loadFinetuneCheckpoint ∉ (start_training t (some p) env).1 ∧
      Event.printFinetuneLoadFailed ∉ (start_training t (some p) env).1 := by
  intro t env p
  have h : start_training t (some p) env = startTrainingCore t true env := rfl
  rw [h]
  clear h
  refine ⟨?_, ?_, ?_, ?_⟩
  all_goals revert t env
  all_goals decide

/-- C1 witness: the amended policy at a concrete resuming run whose
decoder load fails. -/
theorem C1_checkpoint_load_error_policy_witness :
    Event.printDecoderLoadFailed ∈ (start_training bothStagesTrainer (some ckptPath) envDecoderLoadFails).1 ∧
    Event.loadFinetuneCheckpoint ∉ (start_training bothStagesTrainer (some ckptPath) envDecoderLoadFails).1 :=
  ⟨((C1_checkpoint_load_error_policy bothStagesTrainer envDecoderLoadFails ckptPath).2.1 rfl rfl rfl rfl).1,
   (C1_checkpoint_load_error_policy bothStagesTrainer envDecoderLoadFails ckptPath).2.2.1⟩

/-- C10: with a checkpoint given, whenever the decoder-stage load did not
complete successfully (decoder training disabled, or the load raised and
was caught) and the encoder stage did not already abort, the finetune
branch reads `checkpoint_already_load` unbound: the run ends with an
unbound-local error, no finetune checkpoint load is attempted, and
finetune training never starts. -/
theorem C10_finetune_branch_unbound_local :
    ∀ (t : TrainerState) (env : Env) (p : String),
      (t.train_encoder = true → env.loadEncoder = LoadResult.ok) →
      (t.train_decoder = false ∨ env.loadDecoder = LoadResult.fail) →
      (start_training t (some p) env).2 = some (Err.unboundLocal checkpointAlreadyLoadVar) ∧
      Event.loadFinetuneCheckpoint ∉ (start_training t (some p) env).1 ∧
      Event.printFinetuneLoadFailed ∉ (start_training t (some p) env).1 ∧
      Event.finetuneRun ∉ (start_training t (some p) env).1 := by
  intro t env p
  have h : start_training t (some p) env = startTrainingCore t true env := rfl
  rw [h]
  clear h
  intro h1 h2
  refine ⟨?_, ?_, ?_, ?_⟩
  all_goals revert h1 h2
  all_goals revert t env
  all_goals decide

/-- C10 witness: concrete run with decoder training disabled. -/
theorem C10_finetune_branch_unbound_local_witness :
    (start_training encoderOnlyTrainer (some ckptPath) envDecoderLoadFails).2 =
      some (Err.unboundLocal checkpointAlreadyLoadVar) ∧
    Event.loadFinetuneCheckpoint ∉ (start_training encoderOnlyTrainer (some ckptPath) envDecoderLoadFails).1 ∧
    Event.printFinetuneLoadFailed ∉ (start_training encoderOnlyTrainer (some ckptPath) envDecoderLoadFails).1 ∧
    Event.finetuneRun ∉ (start_training encoderOnlyTrainer (some ckptPath) envDecoderLoadFails).1 :=
  C10_finetune_branch_unbound_local encoderOnlyTrainer envDecoderLoadFails ckptPath
    (fun _ => rfl) (Or.inr rfl)

end ContrastTrainer

/-- A supervised criterion producing a NaN loss on every input. -/
def nanSupCriterion : List Unit → List Unit → FVal := fun _ _ => FVal.nan

/-- C2: counterexample.  A batch of the semi-supervised `TrainEpocher._run`
loop whose supervised criterion produces a NaN loss does not raise: the
step completes and the NaN total loss reaches the backward pass and the
optimizer step, so the claimed raise-on-NaN does not hold for every
epocher variant. -/
theorem C2_nan_loss_reaches_backward_cex :
    TrainEpocher.runBatch (fun xs : List Unit => xs) id id nanSupCriterion
        TrainEpocher.baseRegularization 1 [()] [()] [()] () =
      Except.ok ((), [Ev.modelForward 3, Ev.zeroGrad, Ev.backward FVal.nan, Ev.optStep]) := by
  rfl

/-- Helper: the split-size check of `runBatch` always passes for an
elementwise (hence length-preserving) model, so the batch step returns
`ok` whatever losses the criteria produce. -/
theorem runBatch_map_model_isOk {α β γ σ : Type} (f : α → β) (aI : α → α) (aL : β → β)
    (sup : List β → List γ → FVal) (reg : RegInput α β → σ → FVal × σ × List Ev)
    (w : ℚ) (lab : List α) (tgt : List γ) (unlab : List α) (st : σ) :
    (TrainEpocher.runBatch (fun xs => List.map f xs) aI aL sup reg w lab tgt unlab st).isOk = true := by
  have hlen : (List.map f (lab ++ unlab ++ List.map aI unlab)).length
      = lab.length + unlab.length + unlab.length := by
    simp
    omega
  simp only [TrainEpocher.runBatch]
  rw [if_pos hlen]
  rfl

/-- C2 (amended): the NaN check exists only in `PretrainDecoderEpoch._run`,
which raises before the backward pass exactly when the contrastive loss is
NaN; `PretrainEncoderEpoch._run` and the semi-supervised
`TrainEpocher._run` perform backward and step with no NaN detection at
all. -/
theorem C2_nan_detection_only_in_decoder_pretrain :
    ∀ (n : Nat) (loss : FVal),
      (loss.isnan = true →
        PretrainDecoderEpoch.runBatch n loss = Except.error (Err.runtimeError decoderNanMsg)) ∧
      (loss.isnan = false →
        PretrainDecoderEpoch.runBatch n loss =
          Except.ok [Ev.modelForward n, Ev.zeroGrad, Ev.backward loss, Ev.optStep]) ∧
      PretrainEncoderEpoch.runBatch n loss =
        Except.ok [Ev.modelForward n, Ev.zeroGrad, Ev.backward loss, Ev.optStep] ∧
      (∀ {α β γ σ : Type} (f : α → β) (aI : α → α) (aL : β → β)
          (sup : List β → List γ → FVal) (reg : RegInput α β → σ → FVal × σ × List Ev)
          (w : ℚ) (lab : List α) (tgt : List γ) (unlab : List α) (st : σ),
        (TrainEpocher.runBatch (fun xs => List.map f xs) aI aL sup reg w lab tgt unlab st).isOk = true) := by
  intro n loss
  refine ⟨fun h => ?_, fun h => ?_, rfl, ?_⟩
  · simp [PretrainDecoderEpoch.runBatch, h]
  · simp [PretrainDecoderEpoch.runBatch, h]
  · intro α β γ σ f aI aL sup reg w lab tgt unlab st
    exact runBatch_map_model_isOk f aI aL sup reg w lab tgt unlab st

/-- C2 witness: a NaN loss aborts the decoder-pretrain batch but a
NaN-producing supervised criterion leaves the semi-supervised batch
running. -/
theorem C2_nan_detection_only_in_decoder_pretrain_witness :
    FVal.nan.isnan = true ∧
    PretrainDecoderEpoch.runBatch 3 FVal.nan = Except.error (Err.runtimeError decoderNanMsg) ∧
    (TrainEpocher.runBatch (fun xs : List Unit => List.map id xs) id id nanSupCriterion
        TrainEpocher.baseRegularization 1 [()] [()] [()] ()).isOk = true :=
  ⟨rfl, (C2_nan_detection_only_in_decoder_pretrain 3 FVal.nan).1 rfl,
   (C2_nan_detection_only_in_decoder_pretrain 3 FVal.nan).2.2.2 id id id nanSupCriterion
     TrainEpocher.baseRegularization 1 [()] [()] [()] ()⟩

/-- Pointwise form of the EMA update rule. -/
theorem ema_update_getD (decay : ℚ) :
    ∀ (t s : List ℚ) (i : Nat), i < t.length → i < s.length →
      (ema_update decay t s).getD i 0 = decay * t.getD i 0 + (1 - decay) * s.getD i 0 := by
  intro t
  induction t with
  | nil => intro s i ht hs; simp at ht
  | cons a tl ih =>
    intro s i ht hs
    cases s with
    | nil => simp at hs
    | cons b sl =>
      cases i with
      | zero => simp [ema_update]
      | succ j =>
        have := ih sl j (by simpa using ht) (by simpa using hs)
        simpa [ema_update] using this

/-- C3 (amended): in every mean-teacher batch the EMA teacher update
happens exactly once, during the regularization computation and therefore
before the backward pass and the main optimizer step of that batch — not
after the step as claimed — with the per-parameter rule
`teacher = decay*teacher + (1-decay)*student`. -/
theorem C3_ema_update_once_per_batch_before_optimizer_step :
    ∀ {α β γ : Type} (f : α → β) (aI : α → α) (aL : β → β)
      (teacher : List α → List β) (crit : List β → List β → FVal)
      (sup : List β → List γ → FVal) (decay w : ℚ)
      (lab : List α) (tgt : List γ) (unlab : List α) (st : MTState),
      (∃ totalLoss, TrainEpocher.runBatch (fun xs => List.map f xs) aI aL sup
          (MeanTeacherEpocher.regularization teacher aL crit decay) w lab tgt unlab st =
        Except.ok
          ({ st with teacher_params := ema_update decay st.teacher_params st.student_params },
           [Ev.modelForward (lab.length + unlab.length + unlab.length),
            Ev.teacherForward, Ev.emaUpdate, Ev.zeroGrad,
            Ev.backward totalLoss, Ev.optStep])) ∧
      (∀ (t s : List ℚ) (i : Nat), i < t.length → i < s.length →
        (ema_update decay t s).getD i 0 =
          decay * t.getD i 0 + (1 - decay) * s.getD i 0) := by
  intro α β γ f aI aL teacher crit sup decay w lab tgt unlab st
  constructor
  · have hlen : (List.map f (lab ++ unlab ++ List.map aI unlab)).length
        = lab.length + unlab.length + unlab.length := by
      simp
      omega
    refine ⟨(sup ((List.map f (lab ++ unlab ++ List.map aI unlab)).take lab.length) tgt).add
      (FVal.smul w (crit (((List.map f (lab ++ unlab ++ List.map aI unlab)).drop lab.length).drop
        unlab.length) (List.map aL (teacher unlab)))), ?_⟩
    simp only [TrainEpocher.runBatch, MeanTeacherEpocher.regularization]
    rw [if_pos hlen]
    rfl
  · exact fun t s i ht hs => ema_update_getD decay t s i ht hs

/-- Concrete mean-teacher collaborators: identity student and teacher
networks over rational scalars, a constant consistency criterion,
decay 1/2. -/
def mtRegDemo : RegInput ℚ ℚ → MTState → FVal × MTState × List Ev :=
  MeanTeacherEpocher.regularization (fun xs => xs) (fun q => q) (fun _ _ => FVal.val 1) (1/2)

/-- A concrete mean-teacher batch: one labeled example, one unlabeled
example, student parameters `[10]`, teacher parameters `[20]`. -/
def mtBatchDemo : Except Err (MTState × List Ev) :=
  TrainEpocher.runBatch (fun xs => List.map (fun q : ℚ => q) xs) (fun q => q) (fun q => q)
    (fun _ _ => FVal.val 0) mtRegDemo 1 [1] [2] [3] ⟨[10], [20]⟩

/-- The events of `mtBatchDemo`, in execution order. -/
def mtBatchDemoEvents : List Ev :=
  [Ev.modelForward 3, Ev.teacherForward, Ev.emaUpdate, Ev.zeroGrad,
   Ev.backward (FVal.val 1), Ev.optStep]

/-- C3: counterexample.  In a concrete mean-teacher batch the single EMA
update of the teacher happens strictly before the single optimizer step,
so the claim that the update happens after the main optimizer step is
false. -/
theorem C3_ema_update_before_optimizer_step_cex :
    mtBatchDemo = Except.ok (⟨[10], [15]⟩, mtBatchDemoEvents) ∧
    mtBatchDemoEvents.count Ev.emaUpdate = 1 ∧
    mtBatchDemoEvents.count Ev.optStep = 1 ∧
    mtBatchDemoEvents.indexOf Ev.emaUpdate < mtBatchDemoEvents.indexOf Ev.optStep := by
  refine ⟨?_, by decide, by decide, by decide⟩
  simp only [mtBatchDemo, mtRegDemo, mtBatchDemoEvents, TrainEpocher.runBatch,
    MeanTeacherEpocher.regularization, ema_update, FVal.add, FVal.smul]
  norm_num

/-- C3 witness: the amended statement at the concrete batch `mtBatchDemo`
and the EMA rule at parameter index 0. -/
theorem C3_ema_update_once_per_batch_before_optimizer_step_witness :
    (∃ totalLoss, mtBatchDemo = Except.ok (⟨[10], ema_update (1/2) [20] [10]⟩,
      [Ev.modelForward 3, Ev.teacherForward, Ev.emaUpdate, Ev.zeroGrad,
       Ev.backward totalLoss, Ev.optStep])) ∧
    (ema_update (1/2) [20] [10]).getD 0 0 = (1/2) * (20 : ℚ) + (1 - (1/2)) * 10 :=
  ⟨(C3_ema_update_once_per_batch_before_optimizer_step (fun q : ℚ => q) (fun q => q) (fun q => q)
      (fun xs => xs) (fun _ _ => FVal.val 1) (fun _ _ => FVal.val 0) (1/2) 1
      [1] [2] [3] ⟨[10], [20]⟩).1,
   (C3_ema_update_once_per_batch_before_optimizer_step (fun q : ℚ => q) (fun q => q) (fun q => q)
      (fun xs => xs) (fun _ _ => FVal.val 1) (fun _ _ => FVal.val 0) (1/2) 1
      [1] [2] [3] ⟨[10], [20]⟩).2 [20] [10] 0 (by decide) (by decide)⟩

/-- C8: every batch invokes the model exactly once, on the concatenation
of the labeled, unlabeled and augmented-unlabeled images, and splits the
output along the batch dimension into three groups of sizes `n_labeled`,
`n_unlabeled`, `n_unlabeled` whose concatenation is the whole model
output; the sizes are tracked separately, so unequal labeled and unlabeled
batch sizes are handled. -/
theorem C8_single_forward_pass_and_three_way_split :
    ∀ {α β γ σ : Type} (f : α → β) (aI : α → α) (aL : β → β)
      (sup : List β → List γ → FVal) (w : ℚ)
      (lab : List α) (tgt : List γ) (unlab : List α) (st : σ),
      TrainEpocher.runBatch (fun xs => List.map f xs) aI aL sup
          TrainEpocher.baseRegularization w lab tgt unlab st =
        Except.ok (st,
          [Ev.modelForward (lab.length + unlab.length + unlab.length), Ev.zeroGrad,
           Ev.backward ((sup ((List.map f (lab ++ unlab ++ List.map aI unlab)).take lab.length) tgt).add
             (FVal.smul w (FVal.val 0))), Ev.optStep]) ∧
      (TrainEpocher.forwardSplit (fun xs => List.map f xs) lab unlab (List.map aI unlab)).1.length
        = lab.length ∧
      (TrainEpocher.forwardSplit (fun xs => List.map f xs) lab unlab (List.map aI unlab)).2.1.length
        = unlab.length ∧
      (TrainEpocher.forwardSplit (fun xs => List.map f xs) lab unlab (List.map aI unlab)).2.2.length
        = unlab.length ∧
      (TrainEpocher.forwardSplit (fun xs => List.map f xs) lab unlab (List.map aI unlab)).1 ++
        (TrainEpocher.forwardSplit (fun xs => List.map f xs) lab unlab (List.map aI unlab)).2.1 ++
        (TrainEpocher.forwardSplit (fun xs => List.map f xs) lab unlab (List.map aI unlab)).2.2
        = List.map f (lab ++ unlab ++ List.map aI unlab) := by
  intro α β γ σ f aI aL sup w lab tgt unlab st
  have hlen : (List.map f (lab ++ unlab ++ List.map aI unlab)).length
      = lab.length + unlab.length + unlab.length := by
    simp
    omega
  refine ⟨?_, ?_, ?_, ?_, ?_⟩
  · simp only [TrainEpocher.runBatch, TrainEpocher.baseRegularization]
    rw [if_pos hlen]
    rfl
  · simp [TrainEpocher.forwardSplit]
  · simp only [TrainEpocher.forwardSplit, List.length_take, List.length_drop]
    rw [hlen]
    omega
  · simp only [TrainEpocher.forwardSplit, List.length_drop]
    rw [hlen]
    omega
  · simp only [TrainEpocher.forwardSplit]
    rw [List.append_assoc, List.take_append_drop, List.take_append_drop]

/-- C4: counterexample.  `TrainEpocher.__init__` accepts
`feature_position = ["Conv5"]` together with `feature_importance = [1, 2]`
even though the lengths differ: its asserts check only the argument types,
so construction does not fail fast on mismatched lengths. -/
theorem C4_epocher_init_accepts_unequal_lengths_cex :
    TrainEpocherInit.checkInitAsserts (TrainEpocherInit.PyArg.list ["Conv5"])
        (TrainEpocherInit.PyArg.list [1, 2]) = Except.ok (["Conv5"], [1, 2]) ∧
    (["Conv5"] : List String).length ≠ ([1, 2] : List ℚ).length := by
  refine ⟨rfl, by decide⟩

/-- C4 (amended): `TrainEpocher.__init__` only asserts that both
arguments are nonempty lists of the right element types and accepts
unequal lengths; the equal-length validation lives in the trainer mixin
`_FeatureExtractor._init`, which fails fast with an assertion error on any
mismatch (before any batch is processed) and succeeds exactly when the
lengths agree. -/
theorem C4_length_check_in_trainer_mixin_not_epocher_init :
    ∀ (fp : List String) (fi : List ℚ),
      (fp ≠ [] → fi ≠ [] →
        TrainEpocherInit.checkInitAsserts (TrainEpocherInit.PyArg.list fp)
          (TrainEpocherInit.PyArg.list fi) = Except.ok (fp, fi)) ∧
      (fi.length ≠ fp.length →
        FeatureExtractorMixin.init true fp fi =
          Except.error (Err.assertionError FeatureExtractorMixin.lengthMismatchMsg)) ∧
      (fi.length = fp.length →
        FeatureExtractorMixin.init true fp fi = Except.ok (fp, fi)) := by
  intro fp fi
  refine ⟨fun h1 h2 => ?_, fun h => ?_, fun h => ?_⟩
  · simp [TrainEpocherInit.checkInitAsserts, List.isEmpty_iff, h1, h2]
  · simp [FeatureExtractorMixin.init, h]
  · simp [FeatureExtractorMixin.init, h]

/-- C4 witness: the amended statement at the concrete mismatched pair
`["Conv5"]` and `[1, 2]`. -/
theorem C4_length_check_in_trainer_mixin_not_epocher_init_witness :
    TrainEpocherInit.checkInitAsserts (TrainEpocherInit.PyArg.list ["Conv5"])
        (TrainEpocherInit.PyArg.list [1, 2]) = Except.ok (["Conv5"], [1, 2]) ∧
    FeatureExtractorMixin.init true ["Conv5"] [1, 2] =
      Except.error (Err.assertionError FeatureExtractorMixin.lengthMismatchMsg) :=
  ⟨(C4_length_check_in_trainer_mixin_not_epocher_init ["Conv5"] [1, 2]).1
      (by decide) (by decide),
   (C4_length_check_in_trainer_mixin_not_epocher_init ["Conv5"] [1, 2]).2.1 (by decide)⟩

/-- C5: whenever `InfoNCEEpocher.regularization` receives at least one
captured feature (paired with its projector), its loss-aggregation path
reads the undefined name `_iic_loss_list` and raises `NameError`; the
method never returns a loss value on that path. -/
theorem C5_infonce_regularization_raises_name_error :
    ∀ {φ π : Type} (emptyCase : Except Err FVal) (pair : φ × π) (rest : List (φ × π)),
      InfoNCEEpocher.regularization emptyCase (pair :: rest) =
        Except.error (Err.nameError iicLossListVar) ∧
      ∀ loss, InfoNCEEpocher.regularization emptyCase (pair :: rest) ≠ Except.ok loss := by
  intro φ π ec pair rest
  refine ⟨rfl, fun loss h => ?_⟩
  simp [InfoNCEEpocher.regularization] at h

/-- C5 witness: the `NameError` at a concrete one-feature input. -/
theorem C5_infonce_regularization_raises_name_error_witness :
    InfoNCEEpocher.regularization (Except.ok (FVal.val 0)) [((), ())] =
      Except.error (Err.nameError iicLossListVar) ∧
    InfoNCEEpocher.regularization (Except.ok (FVal.val 0)) [((), ())] ≠
      Except.ok (FVal.val 0) :=
  ⟨(C5_infonce_regularization_raises_name_error (Except.ok (FVal.val 0)) ((), ()) []).1,
   (C5_infonce_regularization_raises_name_error (Except.ok (FVal.val 0)) ((), ()) []).2 (FVal.val 0)⟩

/-- A pretrain configuration containing both the DiscreteMI-consistency
block and the MeanTeacher block. -/
def cfgBothTeacherBlocks : Config := ⟨true, true, false, false, true, true, false, false, false, false⟩

/-- A well-formed configuration whose only hook block is MeanTeacher. -/
def cfgMeanTeacherOnly : Config := ⟨true, true, false, false, false, true, false, false, false, false⟩

/-- A well-formed configuration with no hook blocks at all. -/
def cfgNoHooks : Config := ⟨true, true, false, false, false, false, false, false, false, false⟩

/-- C6: counterexample.  A pretrain configuration containing both
`DiscreteMIConsistencyParams` and `MeanTeacherParameters` raises the
DiscreteMI-consistency error, whose message does not state that
MeanTeacher is unsupported — so not every configuration containing
`MeanTeacherParameters` raises an error stating that. -/
theorem C6_mean_teacher_message_shadowed_cex :
    create_hook_from_config cfgBothTeacherBlocks true =
      Except.error (Err.runtimeError dmiPretrainMsg) ∧
    Err.runtimeError dmiPretrainMsg ≠ Err.runtimeError mtPretrainMsg := by
  refine ⟨rfl, by decide⟩

/-- C6 (amended): for every configuration containing
`MeanTeacherParameters`, `create_hook_from_config` with `is_pretrain=True`
raises (never returns a hook list, so no mean-teacher hook is constructed
or registered); when the configuration is well-formed (has the `Data` and
`Trainer` keys) and contains no `DiscreteMIConsistencyParams` block, the
raised `RuntimeError` is the one stating that MeanTeacher is unsupported
in pretrain. -/
theorem C6_mean_teacher_rejected_in_pretrain :
    ∀ (cfg : Config),
      cfg.hasMeanTeacherParameters = true →
      (create_hook_from_config cfg true).isOk = false ∧
      (cfg.hasData = true → cfg.hasTrainer = true →
       cfg.hasDiscreteMIConsistencyParams = false →
        create_hook_from_config cfg true = Except.error (Err.runtimeError mtPretrainMsg)) := by
  intro cfg hmt
  obtain ⟨d, tr, inf, spi, dmi, mt, dmt2, ent, orth, iid⟩ := cfg
  have hmt2 : mt = true := hmt
  subst hmt2
  constructor
  · cases d
    · simp [create_hook_from_config, Except.isOk, Except.toBool]
    · cases tr
      · simp [create_hook_from_config, Except.isOk, Except.toBool]
      · cases dmi <;> simp [create_hook_from_config, Except.isOk, Except.toBool]
  · intro hd htr hdmi
    have hd2 : d = true := hd
    have htr2 : tr = true := htr
    have hdmi2 : dmi = false := hdmi
    subst hd2
    subst htr2
    subst hdmi2
    simp [create_hook_from_config]

/-- C6 witness: a configuration whose only hook block is MeanTeacher. -/
theorem C6_mean_teacher_rejected_in_pretrain_witness :
    (create_hook_from_config cfgMeanTeacherOnly true).isOk = false ∧
    create_hook_from_config cfgMeanTeacherOnly true =
      Except.error (Err.runtimeError mtPretrainMsg) :=
  ⟨(C6_mean_teacher_rejected_in_pretrain cfgMeanTeacherOnly rfl).1,
   (C6_mean_teacher_rejected_in_pretrain cfgMeanTeacherOnly rfl).2 rfl rfl rfl⟩

/-- C7: when the configuration selects the finetune trainer (`ft`, and
likewise `dmt`) the worker skips hook construction and the non-empty-hooks
validation entirely — zero hooks, registration replaced by `nullcontext`,
no configuration error, training proceeds; for every other trainer name an
empty constructed hook list is a fatal startup error, so a successful
startup never has an empty hook list. -/
theorem C7_finetune_and_dmt_skip_hook_validation :
    ∀ (cfg : Config) (name : String),
      worker "ft" cfg = Except.ok ⟨[], false⟩ ∧
      worker "dmt" cfg = Except.ok ⟨[], false⟩ ∧
      (name ≠ "ft" → name ≠ "dmt" →
        ∀ out, worker name cfg = Except.ok out → out.hooks ≠ []) := by
  intro cfg name
  refine ⟨rfl, rfl, ?_⟩
  intro h1 h2 out h3 hnil
  simp only [worker] at h3
  by_cases hmem : name ∈ trainer_zoo
  · rw [if_pos hmem] at h3
    have hcond : (name != "ft" && name != "dmt") = true := by
      simp [bne_iff_ne, h1, h2]
    rw [if_pos hcond] at h3
    rcases hcreate : create_hook_from_config cfg (name == "pretrain") with e | hooks
    · rw [hcreate] at h3
      exact absurd h3 (by simp)
    · rw [hcreate] at h3
      change (if hooks.length = 0 then Except.error (Err.assertionError emptyHooksMsg)
        else Except.ok ⟨hooks, true⟩) = Except.ok out at h3
      by_cases hlen : hooks.length = 0
      · rw [if_pos hlen] at h3
        exact absurd h3 (by simp)
      · rw [if_neg hlen] at h3
        have h4 : hooks = out.hooks := by
          injection h3 with h5
          rw [← h5]
        rw [h4, hnil] at hlen
        exact hlen rfl
  · rw [if_neg hmem] at h3
    exact absurd h3 (by simp)

/-- C7 witness: a hookless configuration under the `ft` and `semi`
trainers. -/
theorem C7_finetune_and_dmt_skip_hook_validation_witness :
    worker "ft" cfgNoHooks = Except.ok ⟨[], false⟩ ∧
    (∀ out, worker "semi" cfgNoHooks = Except.ok out → out.hooks ≠ []) :=
  ⟨(C7_finetune_and_dmt_skip_hook_validation cfgNoHooks "semi").1,
   (C7_finetune_and_dmt_skip_hook_validation cfgNoHooks "semi").2.2 (by decide) (by decide)⟩

/-- C9: a Consistency hook constructed with weight 0 returns a
regularization loss contribution equal to exactly 0 on every batch,
whatever the unlabeled logits (and exponential map) are; in general the
returned value is the weight multiplied by the MSE consistency criterion
on the softmaxed logits. -/
theorem C9_consistency_hook_weight_zero_returns_zero :
    ∀ (exp : ℚ → ℚ) (unlabeled_tf_logits unlabeled_logits_tf : List (List ℚ)),
      ConsistencyHook.call exp 0 unlabeled_tf_logits unlabeled_logits_tf = 0 ∧
      ∀ w, ConsistencyHook.call exp w unlabeled_tf_logits unlabeled_logits_tf =
        w * ConsistencyHook.mseLoss (ConsistencyHook.softmax exp unlabeled_logits_tf)
          (ConsistencyHook.softmax exp unlabeled_tf_logits) := by
  intro exp l1 l2
  constructor
  · show (0 : ℚ) * _ = 0
    exact zero_mul _
  · intro w
    rfl
